import Mathlib

/-!
# clipboard.js

A shallow embedding of `src/clipboard.js`: the two classes `Clipboard` (the binder) and
`ClipboardAction` (one copy/cut attempt), over an explicit model of the part of the host
document the program reads and writes.

* Stateful code is explicit state passing over `World` (the document plus the ordered log of
  every effect the program performs on the host).
* A JavaScript `throw` is a `Completion` whose `thrown` field is set; the world of the completion
  is the world at the moment of the throw.
* The host primitives the program cannot define itself are the fields of `Platform`, over which
  every theorem quantifies: `document.querySelectorAll`, `document.execCommand`, how
  `Selection.addRange` treats ranges that are already there, what `select()` on a field does to
  the global selection, the text a range over the contents of an element stringifies to, and how
  the removal of a node adjusts the selected ranges.
-/

namespace ClipboardJs

/-! ## The host document -/

/-- An element of the host document, reduced to what the program reads: its identity (`node`),
its `nodeName`, its attributes, the `value` of a form field and its text content. -/
structure Element where
  node : Nat
  nodeName : String
  attributes : List (String × String)
  value : String
  textContent : String
deriving DecidableEq, Repr

/-- The method `element.getAttribute(name)`: `none` stands for `null`. -/
def Element.getAttribute (e : Element) (name : String) : Option String :=
  e.attributes.lookup name

/-- The document: every element in tree order (searched by `getElementById`), the nodes that are
children of `document.body`, the text of each range of the global selection, and the identity the
next created element gets. -/
structure Document where
  elements : List Element
  body : List Nat
  ranges : List String
  nextNode : Nat
deriving DecidableEq, Repr

/-- The method `document.getElementById(id)`: the first element in tree order with that id. -/
def Document.getElementById (d : Document) (id : String) : Option Element :=
  d.elements.find? (fun e => e.getAttribute "id" == some id)

/-- Every node of the document is older than the next node to be created. -/
def Document.WellFormed (d : Document) : Prop :=
  (∀ e ∈ d.elements, e.node < d.nextNode) ∧ (∀ n ∈ d.body, n < d.nextNode)

instance (d : Document) : Decidable d.WellFormed := by
  unfold Document.WellFormed
  infer_instance

/-! ## Events -/

/-- The payload of an emitted event: the object `{action, text}` of a success event or the
message string of an error event. -/
inductive Detail where
  | result (action : String) (text : Option String)
  | message (text : String)
deriving DecidableEq, Repr

/-- The dictionary passed as second argument to `new CustomEvent(type, dict)`; a member that is
not given is `none`. -/
structure CustomEventInit where
  bubbles : Option Bool
  cancelable : Option Bool
  detail : Option Detail
deriving DecidableEq, Repr

/-- An event object as the trigger receives it. -/
structure CustomEvent where
  type : String
  bubbles : Bool
  cancelable : Bool
  detail : Option Detail
deriving DecidableEq, Repr

/-- The constructor `new CustomEvent(type, dict)` of the DOM (and of the `custom-event` package
the source requires in its place): `bubbles` and `cancelable` are `false` unless the dictionary
sets them. -/
def CustomEvent.new (type : String) (dict : CustomEventInit) : CustomEvent :=
  { type := type
    bubbles := dict.bubbles.getD false
    cancelable := dict.cancelable.getD false
    detail := dict.detail }

/-! ## Effects and the world -/

/-- One effect of the program on the host, in the order performed. -/
inductive Effect where
  | addEventListener (node : Nat) (type : String)
  | createElement (node : Nat) (tag : String)
  | setStyle (node : Nat) (property : String) (value : String)
  | setValue (node : Nat) (value : Option String)
  | appendChild (node : Nat)
  | removeChild (node : Nat)
  | select (node : Nat)
  | addRange (node : Nat)
  | execCommand (command : String)
  | dispatchEvent (node : Nat) (event : CustomEvent)
  | blur (node : Nat)
  | removeAllRanges
deriving DecidableEq, Repr

/-- An attached event listener: the node it is on and the event type. Every listener the program
attaches has the same body, `(e) => this.validate(e)`. -/
structure Listener where
  node : Nat
  type : String
deriving DecidableEq, Repr

/-- The state the program runs in. -/
structure World where
  document : Document
  listeners : List Listener
  log : List Effect
deriving DecidableEq, Repr

/-- Record an effect at the end of the log. -/
def World.emit (w : World) (e : Effect) : World :=
  { w with log := w.log ++ [e] }

/-- The effects performed since the world `w0`. -/
def World.since (w w0 : World) : List Effect :=
  w.log.drop w0.log.length

/-- What `document.execCommand` does: it returns a boolean or it throws. -/
inductive ExecResult where
  | returned (succeeded : Bool)
  | threw
deriving DecidableEq, Repr

/-- The host primitives the program relies on.

* `querySelectorAll` answers `none` when the host rejects the selector with an exception of its
  own.
* `addRangeKeepsExisting` tells whether `Selection.addRange` adds the range next to the ranges
  already selected (`true`) or ignores the call when the selection already holds a range
  (`false`).
* `selectField ranges value` is the text of the ranges of the global selection after `select()`
  is called on a field holding `value`, `ranges` being the text of the ranges before: hosts
  differ on whether the call replaces the selection.
* `rangeText element` is the text `Selection.toString()` gives for a range spanning the contents
  of `element`: the host computes it from the rendered content, the program never reads
  `textContent`.
* `adjustOnRemoval ranges` is the text of the selected ranges once a node is removed from the
  document: the host moves the boundaries of the ranges that lie in the node, and neither adds
  nor drops a range (`adjust_length`). -/
structure Platform where
  querySelectorAll : String → Option (List Element)
  execCommand : String → ExecResult
  addRangeKeepsExisting : Bool
  selectField : List String → String → List String
  rangeText : Element → String
  adjustOnRemoval : List String → List String
  adjust_length : ∀ ranges, (adjustOnRemoval ranges).length = ranges.length

/-- A thrown value: `new Error(message)` of the program, or an exception of the host. -/
inductive Thrown where
  | error (message : String)
  | hostException (name : String)
deriving DecidableEq, Repr

/-- The result of running a method: the world it leaves and the exception it raised, if any. -/
structure Completion where
  world : World
  thrown : Option Thrown
deriving DecidableEq, Repr

/-! ## JavaScript truthiness -/

/-- Truthiness of a value that is `null` or a string: only a non-empty string is truthy. -/
def truthy : Option String → Bool
  | some s => s != ""
  | none => false

/-- The expression `a || d` for `a` that is `null` or a string. -/
def orDefault (a : Option String) (d : String) : String :=
  match a with
  | some s => if s != "" then s else d
  | none => d

/-! ## Error messages -/

/-- Message of the error `Clipboard`'s constructor throws. -/
def noMatchesMessage : String := "No matches were found for the provided selector"

/-- Message of the first error of `validate`. -/
def invalidActionMessage : String :=
  "Invalid \"data-action\" value, use either \"copy\" or \"cut\""

/-- Message of the second error of `validate`. -/
def missingAttributesMessage : String :=
  "Missing required attributes, use either \"data-target\" or \"data-text\""

/-- Message of the third error of `validate`. -/
def invalidTargetMessage : String :=
  "Invalid \"data-target\" selector, use a value that matches an ID"

/-! ## class ClipboardAction -/

/-- The fields of a `ClipboardAction` object. `target` is the element `validate` resolved, or
`none` for the falsy value (`null` or the empty string) it passes otherwise; `text` and
`selectedText` are `null` (`none`) or a string. -/
structure ClipboardAction where
  action : String
  target : Option Element
  text : Option String
  trigger : Element
  selectedText : Option String
deriving DecidableEq, Repr

/-- The method `fireEvent(type, detail)`: builds the event from a dictionary that sets `detail`
only, and dispatches it on the trigger. -/
def ClipboardAction.fireEvent (this : ClipboardAction) (w : World) (type : String)
    (detail : Detail) : World :=
  let event := CustomEvent.new type { bubbles := none, cancelable := none, detail := some detail }
  w.emit (.dispatchEvent this.trigger.node event)

/-- The method `clearSelection()`. -/
def ClipboardAction.clearSelection (this : ClipboardAction) (w : World) : World :=
  let w1 :=
    match this.target with
    | some target => w.emit (.blur target.node)
    | none => w
  let w2 := w1.emit .removeAllRanges
  { w2 with document := { w2.document with ranges := [] } }

/-- The method `handleResult(succeeded)`. -/
def ClipboardAction.handleResult (this : ClipboardAction) (w : World) (succeeded : Bool) :
    World :=
  if succeeded then
    let w1 := this.fireEvent w "success" (.result this.action this.selectedText)
    this.clearSelection w1
  else
    this.fireEvent w "error" (.message ("Cannot execute " ++ this.action ++ " operation"))

/-- The method `copyText()`: a throw of `document.execCommand` is caught and counts as `false`. -/
def ClipboardAction.copyText (p : Platform) (this : ClipboardAction) (w : World) : World :=
  let w1 := w.emit (.execCommand this.action)
  let succeeded :=
    match p.execCommand this.action with
    | .returned b => b
    | .threw => false
  this.handleResult w1 succeeded

/-- The method `selectValue()`. -/
def ClipboardAction.selectValue (p : Platform) (this : ClipboardAction) (w : World) :
    ClipboardAction × World :=
  let fake := w.document.nextNode
  let w1 := { w with document := { w.document with nextNode := fake + 1 } }
  let w2 := w1.emit (.createElement fake "input")
  let w3 := w2.emit (.setStyle fake "position" "absolute")
  let w4 := w3.emit (.setStyle fake "left" "-9999px")
  let w5 := w4.emit (.setValue fake this.text)
  let this1 := { this with selectedText := this.text }
  let fakeElement : Element :=
    { node := fake, nodeName := "INPUT", attributes := [], value := this.text.getD "",
      textContent := "" }
  let w6 := (w5.emit (.appendChild fake))
  let w7 := { w6 with document := { w6.document with
                elements := w6.document.elements ++ [fakeElement]
                body := w6.document.body ++ [fake] } }
  let w8 := w7.emit (.select fake)
  let w8s := { w8 with document := { w8.document with
                ranges := p.selectField w8.document.ranges (this.text.getD "") } }
  let w9 := this1.copyText p w8s
  let w10 := w9.emit (.removeChild fake)
  let w11 := { w10 with document := { w10.document with
                elements := w10.document.elements.filter (fun e => e.node != fake)
                body := w10.document.body.filter (fun n => n != fake)
                ranges := p.adjustOnRemoval w10.document.ranges } }
  (this1, w11)

/-- The method `Selection.addRange` of the host for a range whose text is `text`, from the text
of the ranges selected before. -/
def addRange (p : Platform) (ranges : List String) (text : String) : List String :=
  if p.addRangeKeepsExisting then ranges ++ [text]
  else if ranges.isEmpty then [text] else ranges

/-- The method `Selection.toString()` of the host: the text of the ranges, concatenated. -/
def selectionToString (ranges : List String) : String :=
  String.join ranges

/-- The method `selectTarget()` for the target element `target` (the method is only called when
`this.target` is an element). -/
def ClipboardAction.selectTarget (p : Platform) (this : ClipboardAction) (target : Element)
    (w : World) : ClipboardAction × World :=
  if target.nodeName == "INPUT" || target.nodeName == "TEXTAREA" then
    let w1 := w.emit (.select target.node)
    let w1s := { w1 with document := { w1.document with
                  ranges := p.selectField w1.document.ranges target.value } }
    let this1 := { this with selectedText := some target.value }
    (this1, this1.copyText p w1s)
  else
    let w1 := w.emit (.addRange target.node)
    let w2 := { w1 with document := { w1.document with
                  ranges := addRange p w1.document.ranges (p.rangeText target) } }
    let this1 := { this with selectedText := some (selectionToString w2.document.ranges) }
    (this1, this1.copyText p w2)

/-- The constructor `new ClipboardAction(action, target, text, trigger)`. -/
def ClipboardAction.new (p : Platform) (action : String) (target : Option Element)
    (text : Option String) (trigger : Element) (w : World) : ClipboardAction × World :=
  let this : ClipboardAction :=
    { action := action, target := target, text := text, trigger := trigger,
      selectedText := some "" }
  if truthy this.text then
    this.selectValue p w
  else
    match this.target with
    | some target => this.selectTarget p target w
    | none => (this, w)

/-! ## class Clipboard -/

/-- The method `bind(trigger)`. -/
def Clipboard.bind (w : World) (trigger : Element) : World :=
  let w1 := w.emit (.addEventListener trigger.node "click")
  { w1 with listeners := w1.listeners ++ [{ node := trigger.node, type := "click" }] }

/-- The constructor `new Clipboard(triggers)`. -/
def Clipboard.new (p : Platform) (w : World) (triggers : String) : Completion :=
  match p.querySelectorAll triggers with
  | none => { world := w, thrown := some (.hostException "SyntaxError") }
  | some found =>
    if found.length == 0 then
      { world := w, thrown := some (.error noMatchesMessage) }
    else
      { world := found.foldl Clipboard.bind w, thrown := none }

/-- The method `validate(e)`, where `trigger` is `e.currentTarget`. -/
def Clipboard.validate (p : Platform) (w : World) (trigger : Element) : Completion :=
  let action := orDefault (trigger.getAttribute "data-action") "copy"
  let target := trigger.getAttribute "data-target"
  let text := trigger.getAttribute "data-text"
  if action != "copy" && action != "cut" then
    { world := w, thrown := some (.error invalidActionMessage) }
  else if !truthy target && !truthy text then
    { world := w, thrown := some (.error missingAttributesMessage) }
  else if truthy target then
    match w.document.getElementById (target.getD "") with
    | none => { world := w, thrown := some (.error invalidTargetMessage) }
    | some element =>
      { world := (ClipboardAction.new p action (some element) text trigger w).2, thrown := none }
  else
    { world := (ClipboardAction.new p action none text trigger w).2, thrown := none }

/-! ## The guards of `validate` -/

/-- The value `validate` binds to `action`: the attribute, or `"copy"` when the attribute is
`null` or empty. -/
def resolvedAction (trigger : Element) : String :=
  orDefault (trigger.getAttribute "data-action") "copy"

/-- The first guard of `validate`: `action !== 'copy' && action !== 'cut'`. -/
def invalidAction (trigger : Element) : Bool :=
  resolvedAction trigger != "copy" && resolvedAction trigger != "cut"

/-- The second guard of `validate`: `!target && !text`. -/
def missingAttributes (trigger : Element) : Bool :=
  !truthy (trigger.getAttribute "data-target") && !truthy (trigger.getAttribute "data-text")

/-- The third guard of `validate`: `target` is truthy and `getElementById(target)` is `null`. -/
def unresolvedTarget (w : World) (trigger : Element) : Bool :=
  truthy (trigger.getAttribute "data-target") &&
    (w.document.getElementById ((trigger.getAttribute "data-target").getD "")).isNone

/-- The value `validate` passes as `target` to the action: the element found for a truthy
`data-target`, and otherwise the falsy value it read. -/
def resolvedTarget (w : World) (trigger : Element) : Option Element :=
  if truthy (trigger.getAttribute "data-target") then
    w.document.getElementById ((trigger.getAttribute "data-target").getD "")
  else none

/-- None of the three guards of `validate` fires. -/
def validated (w : World) (trigger : Element) : Bool :=
  !invalidAction trigger && !missingAttributes trigger && !unresolvedTarget w trigger

/-! ## Reading the log -/

/-- An event dispatch. -/
def Effect.isDispatch : Effect → Bool
  | .dispatchEvent _ _ => true
  | _ => false

/-- The dispatch of an event of the given type. -/
def Effect.isEvent (type : String) : Effect → Bool
  | .dispatchEvent _ event => event.type == type
  | _ => false

/-- A call of `document.execCommand`. -/
def Effect.isExecCommand : Effect → Bool
  | .execCommand _ => true
  | _ => false

/-- A selection step: `select()` on a field or `addRange` on the global selection. -/
def Effect.isSelection : Effect → Bool
  | .select _ => true
  | .addRange _ => true
  | _ => false

/-- A step of `clearSelection`: `blur()` on the target or `removeAllRanges()`. -/
def Effect.isClear : Effect → Bool
  | .blur _ => true
  | .removeAllRanges => true
  | _ => false

/-- An insertion into or a removal from `document.body`. -/
def Effect.isBodyChange : Effect → Bool
  | .appendChild _ => true
  | .removeChild _ => true
  | _ => false

/-- Some effect satisfying `a` occurs in the list strictly before one satisfying `b`. -/
def precedes (a b : Effect → Bool) : List Effect → Bool
  | [] => false
  | e :: es => (a e && es.any b) || precedes a b es

/-- Whether the attempt counts as succeeded in `copyText`: a throw counts as `false`. -/
def Platform.succeeded (p : Platform) (action : String) : Bool :=
  match p.execCommand action with
  | .returned b => b
  | .threw => false

/-- The event `fireEvent` builds for a type and a payload. -/
def firedEvent (type : String) (detail : Detail) : CustomEvent :=
  { type := type, bubbles := false, cancelable := false, detail := some detail }

/-- The effects of `handleResult(succeeded)`, in order. -/
def reportEffects (this : ClipboardAction) (succeeded : Bool) : List Effect :=
  if succeeded then
    Effect.dispatchEvent this.trigger.node
        (firedEvent "success" (.result this.action this.selectedText)) ::
      ((match this.target with
        | some target => [Effect.blur target.node]
        | none => []) ++ [Effect.removeAllRanges])
  else
    [Effect.dispatchEvent this.trigger.node
      (firedEvent "error" (.message ("Cannot execute " ++ this.action ++ " operation")))]

/-- The effects of `selectValue` before it calls `copyText`. -/
def fakeEffects (fake : Nat) (text : Option String) : List Effect :=
  [.createElement fake "input", .setStyle fake "position" "absolute",
    .setStyle fake "left" "-9999px", .setValue fake text, .appendChild fake, .select fake]

/-- The test of `selectTarget`: the target is a text field. -/
def isTextField (target : Element) : Bool :=
  target.nodeName == "INPUT" || target.nodeName == "TEXTAREA"

/-- The text `selectTarget` records for a target, given the ranges selected beforehand. -/
def targetText (p : Platform) (ranges : List String) (target : Element) : String :=
  if isTextField target then target.value
  else selectionToString (addRange p ranges (p.rangeText target))

/-- The selection step `selectTarget` performs on a target. -/
def targetEffect (target : Element) : Effect :=
  if isTextField target then .select target.node else .addRange target.node

/-- The action object `new ClipboardAction(...)` starts from. -/
def initialAction (action : String) (target : Option Element) (text : Option String)
    (trigger : Element) : ClipboardAction :=
  { action := action, target := target, text := text, trigger := trigger,
    selectedText := some "" }

/-! ## The effects of one validated click -/

/-- The selection steps of a validated click, up to the call of `copyText`. -/
def clickSelection (w : World) (trigger : Element) : List Effect :=
  if truthy (trigger.getAttribute "data-text") then
    fakeEffects w.document.nextNode (trigger.getAttribute "data-text")
  else
    match resolvedTarget w trigger with
    | some target => [targetEffect target]
    | none => []

/-- The text a validated click records as selected. -/
def clickText (p : Platform) (w : World) (trigger : Element) : Option String :=
  if truthy (trigger.getAttribute "data-text") then trigger.getAttribute "data-text"
  else
    match resolvedTarget w trigger with
    | some target => some (targetText p w.document.ranges target)
    | none => some ""

/-- The action object of a validated click when it reaches `copyText`. -/
def clickAction (p : Platform) (w : World) (trigger : Element) : ClipboardAction :=
  { action := resolvedAction trigger, target := resolvedTarget w trigger,
    text := trigger.getAttribute "data-text", trigger := trigger,
    selectedText := clickText p w trigger }

/-- The steps of a validated click after `copyText` returns. -/
def clickCleanup (w : World) (trigger : Element) : List Effect :=
  if truthy (trigger.getAttribute "data-text") then [.removeChild w.document.nextNode] else []

/-! ## A sample page -/

/-- A text field with id `foo` holding `hello`. -/
def sampleField : Element :=
  { node := 1, nodeName := "INPUT", attributes := [("id", "foo")], value := "hello",
    textContent := "" }

/-- A paragraph with id `bar` whose text is `lorem`. -/
def sampleParagraph : Element :=
  { node := 2, nodeName := "P", attributes := [("id", "bar")], value := "",
    textContent := "lorem" }

/-- A button with the given attributes, used as trigger. -/
def sampleTrigger (attributes : List (String × String)) : Element :=
  { node := 0, nodeName := "BUTTON", attributes := attributes, value := "", textContent := "Copy" }

/-- A page holding the trigger, the field and the paragraph as children of the body, with the
given ranges selected. -/
def sampleWorld (ranges : List String) : World :=
  { document :=
      { elements := [sampleTrigger [], sampleField, sampleParagraph], body := [0, 1, 2],
        ranges := ranges, nextNode := 3 }
    listeners := []
    log := [] }

/-- A host on which `execCommand` answers `result` and `querySelectorAll` finds `found`; its
`addRange` keeps the ranges already selected, `select()` on a field replaces the selection by
the content of the field, a range over an element stringifies to the text content of the
element, and the removal of a node leaves the text of the ranges as it is. -/
def samplePlatform (result : ExecResult) (found : List Element) : Platform :=
  { querySelectorAll := fun _ => some found
    execCommand := fun _ => result
    addRangeKeepsExisting := true
    selectField := fun _ value => [value]
    rangeText := fun element => element.textContent
    adjustOnRemoval := fun ranges => ranges
    adjust_length := fun _ => rfl }

/-! ## The conditions of validation as worded with "present" and "absent" -/

/-- The first condition read literally: the attribute, taken as `"copy"` when it is absent
(`getAttribute` answers `null`), is neither `"copy"` nor `"cut"`. -/
def statedInvalidAction (trigger : Element) : Bool :=
  (trigger.getAttribute "data-action").getD "copy" != "copy" &&
    (trigger.getAttribute "data-action").getD "copy" != "cut"

/-- The second condition read literally: neither attribute is present. -/
def statedMissingAttributes (trigger : Element) : Bool :=
  (trigger.getAttribute "data-target").isNone && (trigger.getAttribute "data-text").isNone

/-- The third condition read literally: a target attribute is present and no element has that
id. -/
def statedUnresolvedTarget (w : World) (trigger : Element) : Bool :=
  match trigger.getAttribute "data-target" with
  | some id => (w.document.getElementById id).isNone
  | none => false

/-- The action of the success payload read literally: the attribute, or `"copy"` when the
attribute is absent. -/
def statedAction (trigger : Element) : String :=
  (trigger.getAttribute "data-action").getD "copy"

/-! ## Lemmas on the methods -/

theorem since_append (w w0 : World) (delta : List Effect) (h : w.log = w0.log ++ delta) :
    w.since w0 = delta := by
  simp [World.since, h]

theorem handleResult_log (this : ClipboardAction) (w : World) (b : Bool) :
    (this.handleResult w b).log = w.log ++ reportEffects this b := by
  cases b <;> cases h : this.target <;>
    simp [ClipboardAction.handleResult, ClipboardAction.fireEvent,
      ClipboardAction.clearSelection, World.emit, CustomEvent.new, reportEffects, firedEvent, h]

theorem handleResult_document (this : ClipboardAction) (w : World) (b : Bool) :
    (this.handleResult w b).document =
      if b then { w.document with ranges := [] } else w.document := by
  cases b <;> cases h : this.target <;>
    simp [ClipboardAction.handleResult, ClipboardAction.fireEvent,
      ClipboardAction.clearSelection, World.emit, h]

theorem copyText_log (p : Platform) (this : ClipboardAction) (w : World) :
    (this.copyText p w).log =
      w.log ++ Effect.execCommand this.action :: reportEffects this (p.succeeded this.action) := by
  simp [ClipboardAction.copyText, handleResult_log, World.emit, Platform.succeeded]

theorem copyText_document (p : Platform) (this : ClipboardAction) (w : World) :
    (this.copyText p w).document =
      if p.succeeded this.action then { w.document with ranges := [] } else w.document := by
  simp [ClipboardAction.copyText, handleResult_document, World.emit, Platform.succeeded]

theorem selectValue_log (p : Platform) (this : ClipboardAction) (w : World) :
    (this.selectValue p w).2.log =
      w.log ++ (fakeEffects w.document.nextNode this.text ++
        Effect.execCommand this.action ::
          (reportEffects { this with selectedText := this.text } (p.succeeded this.action) ++
            [Effect.removeChild w.document.nextNode])) := by
  simp [ClipboardAction.selectValue, copyText_log, World.emit, fakeEffects]

theorem selectValue_selectedText (p : Platform) (this : ClipboardAction) (w : World) :
    (this.selectValue p w).1.selectedText = this.text := by
  simp [ClipboardAction.selectValue]

theorem filter_fresh_elements (l : List Element) (x : Element)
    (h : ∀ e ∈ l, e.node < x.node) :
    (l ++ [x]).filter (fun e => e.node != x.node) = l := by
  rw [List.filter_append]
  have h1 : l.filter (fun e => e.node != x.node) = l := by
    rw [List.filter_eq_self]
    intro e he
    have := h e he
    simp
    omega
  simp [h1]

theorem filter_fresh_nodes (l : List Nat) (x : Nat) (h : ∀ n ∈ l, n < x) :
    (l ++ [x]).filter (fun n => n != x) = l := by
  rw [List.filter_append]
  have h1 : l.filter (fun n => n != x) = l := by
    rw [List.filter_eq_self]
    intro n hn
    have := h n hn
    simp
    omega
  simp [h1]

theorem selectValue_body (p : Platform) (this : ClipboardAction) (w : World)
    (h : w.document.WellFormed) :
    (this.selectValue p w).2.document.body = w.document.body := by
  simp only [ClipboardAction.selectValue, World.emit, copyText_document]
  split <;> simp [filter_fresh_nodes _ _ h.2]

theorem selectValue_elements (p : Platform) (this : ClipboardAction) (w : World)
    (h : w.document.WellFormed) :
    (this.selectValue p w).2.document.elements = w.document.elements := by
  simp only [ClipboardAction.selectValue, World.emit, copyText_document]
  split <;>
    exact filter_fresh_elements w.document.elements
      { node := w.document.nextNode, nodeName := "INPUT", attributes := [],
        value := this.text.getD "", textContent := "" } h.1

theorem selectTarget_selectedText (p : Platform) (this : ClipboardAction) (target : Element)
    (w : World) :
    (this.selectTarget p target w).1.selectedText =
      some (targetText p w.document.ranges target) := by
  by_cases h : isTextField target = true
  · have h1 := h
    simp only [isTextField] at h1
    simp [ClipboardAction.selectTarget, targetText, h, h1]
  · have h1 := h
    simp only [isTextField] at h1
    simp [ClipboardAction.selectTarget, targetText, h, h1, World.emit]

theorem selectTarget_log (p : Platform) (this : ClipboardAction) (target : Element)
    (w : World) :
    (this.selectTarget p target w).2.log =
      w.log ++ targetEffect target :: Effect.execCommand this.action ::
        reportEffects { this with selectedText := some (targetText p w.document.ranges target) }
          (p.succeeded this.action) := by
  by_cases h : isTextField target = true
  · have h1 := h
    simp only [isTextField] at h1
    simp [ClipboardAction.selectTarget, targetText, targetEffect, h, h1, copyText_log, World.emit]
  · have h1 := h
    simp only [isTextField] at h1
    simp [ClipboardAction.selectTarget, targetText, targetEffect, h, h1, copyText_log, World.emit]

theorem selectTarget_ranges (p : Platform) (this : ClipboardAction) (target : Element)
    (w : World) :
    (this.selectTarget p target w).2.document.ranges =
      if p.succeeded this.action then []
      else if isTextField target then p.selectField w.document.ranges target.value
      else addRange p w.document.ranges (p.rangeText target) := by
  by_cases h : isTextField target = true
  · have h1 := h
    simp only [isTextField] at h1
    cases hs : p.succeeded this.action <;>
      simp [ClipboardAction.selectTarget, h, h1, copyText_document, World.emit, hs]
  · have h1 := h
    simp only [isTextField] at h1
    cases hs : p.succeeded this.action <;>
      simp [ClipboardAction.selectTarget, h, h1, copyText_document, World.emit, hs]

theorem adjustOnRemoval_nil (p : Platform) : p.adjustOnRemoval [] = [] :=
  List.length_eq_zero.1 (p.adjust_length [])

theorem selectValue_ranges (p : Platform) (this : ClipboardAction) (w : World)
    (hs : p.succeeded this.action = true) :
    (this.selectValue p w).2.document.ranges = [] := by
  simp [ClipboardAction.selectValue, copyText_document, World.emit, hs, adjustOnRemoval_nil]

theorem new_text (p : Platform) (action : String) (target : Option Element)
    (text : Option String) (trigger : Element) (w : World) (h : truthy text = true) :
    ClipboardAction.new p action target text trigger w =
      (initialAction action target text trigger).selectValue p w := by
  simp [ClipboardAction.new, initialAction, h]

theorem new_target (p : Platform) (action : String) (target : Element)
    (text : Option String) (trigger : Element) (w : World) (h : truthy text = false) :
    ClipboardAction.new p action (some target) text trigger w =
      (initialAction action (some target) text trigger).selectTarget p target w := by
  simp [ClipboardAction.new, initialAction, h]

theorem validate_eq (p : Platform) (w : World) (trigger : Element) :
    Clipboard.validate p w trigger =
      if invalidAction trigger then
        { world := w, thrown := some (.error invalidActionMessage) }
      else if missingAttributes trigger then
        { world := w, thrown := some (.error missingAttributesMessage) }
      else if unresolvedTarget w trigger then
        { world := w, thrown := some (.error invalidTargetMessage) }
      else
        { world := (ClipboardAction.new p (resolvedAction trigger) (resolvedTarget w trigger)
            (trigger.getAttribute "data-text") trigger w).2, thrown := none } := by
  simp only [Clipboard.validate, invalidAction, missingAttributes, unresolvedTarget,
    resolvedAction, resolvedTarget]
  cases (orDefault (trigger.getAttribute "data-action") "copy" != "copy" &&
      orDefault (trigger.getAttribute "data-action") "copy" != "cut") <;>
    cases truthy (trigger.getAttribute "data-target") <;>
    cases truthy (trigger.getAttribute "data-text") <;>
    cases w.document.getElementById ((trigger.getAttribute "data-target").getD "") <;>
    simp

theorem validate_of_validated (p : Platform) (w : World) (trigger : Element)
    (h : validated w trigger = true) :
    Clipboard.validate p w trigger =
      { world := (ClipboardAction.new p (resolvedAction trigger) (resolvedTarget w trigger)
          (trigger.getAttribute "data-text") trigger w).2, thrown := none } := by
  rw [validate_eq]
  simp only [validated, Bool.and_eq_true, Bool.not_eq_true'] at h
  simp [h.1.1, h.1.2, h.2]

theorem validated_source (w : World) (trigger : Element) (h : validated w trigger = true) :
    truthy (trigger.getAttribute "data-text") = true ∨
      ∃ target, resolvedTarget w trigger = some target := by
  simp only [validated, missingAttributes, unresolvedTarget, resolvedTarget] at *
  cases ht : truthy (trigger.getAttribute "data-target") <;>
    cases hx : truthy (trigger.getAttribute "data-text") <;>
    cases hg : w.document.getElementById ((trigger.getAttribute "data-target").getD "") <;>
    simp [ht, hx, hg] at h ⊢

theorem succeeded_iff (p : Platform) (action : String) :
    p.succeeded action = true ↔ p.execCommand action = .returned true := by
  unfold Platform.succeeded
  cases h : p.execCommand action with
  | returned b => cases b <;> simp
  | threw => simp

theorem validate_log (p : Platform) (w : World) (trigger : Element)
    (h : validated w trigger = true) :
    (Clipboard.validate p w trigger).world.log =
      w.log ++ (clickSelection w trigger ++ Effect.execCommand (resolvedAction trigger) ::
        (reportEffects (clickAction p w trigger) (p.succeeded (resolvedAction trigger)) ++
          clickCleanup w trigger)) := by
  rw [validate_of_validated p w trigger h]
  rcases validated_source w trigger h with hx | ⟨target, ht⟩
  · rw [new_text _ _ _ _ _ _ hx, selectValue_log]
    simp [clickSelection, clickAction, clickText, clickCleanup, hx, initialAction]
  · cases hx : truthy (trigger.getAttribute "data-text") with
    | true =>
      rw [new_text _ _ _ _ _ _ hx, selectValue_log]
      simp [clickSelection, clickAction, clickText, clickCleanup, hx, initialAction]
    | false =>
      rw [ht, new_target _ _ _ _ _ _ hx, selectTarget_log]
      simp [clickSelection, clickAction, clickText, clickCleanup, hx, ht, initialAction]

theorem validate_since (p : Platform) (w : World) (trigger : Element)
    (h : validated w trigger = true) :
    (Clipboard.validate p w trigger).world.since w =
      clickSelection w trigger ++ Effect.execCommand (resolvedAction trigger) ::
        (reportEffects (clickAction p w trigger) (p.succeeded (resolvedAction trigger)) ++
          clickCleanup w trigger) :=
  since_append _ _ _ (validate_log p w trigger h)

theorem validate_ranges (p : Platform) (w : World) (trigger : Element)
    (h : validated w trigger = true) (hs : p.succeeded (resolvedAction trigger) = true) :
    (Clipboard.validate p w trigger).world.document.ranges = [] := by
  rw [validate_of_validated p w trigger h]
  cases hx : truthy (trigger.getAttribute "data-text") with
  | true =>
    rw [new_text _ _ _ _ _ _ hx]
    exact selectValue_ranges p _ w (by simpa [initialAction] using hs)
  | false =>
    rcases validated_source w trigger h with hx1 | ⟨target, ht⟩
    · simp [hx] at hx1
    · rw [ht, new_target _ _ _ _ _ _ hx, selectTarget_ranges]
      simp [initialAction, hs]

theorem validated_cases (w : World) (trigger : Element) (h : validated w trigger = true) :
    truthy (trigger.getAttribute "data-text") = true ∨
      (truthy (trigger.getAttribute "data-text") = false ∧
        ∃ target, resolvedTarget w trigger = some target) := by
  cases hx : truthy (trigger.getAttribute "data-text") with
  | true => exact Or.inl rfl
  | false =>
    rcases validated_source w trigger h with hx1 | ht
    · simp [hx] at hx1
    · exact Or.inr ⟨rfl, ht⟩

theorem not_succeeded (p : Platform) (action : String)
    (h : p.execCommand action ≠ .returned true) : p.succeeded action = false := by
  cases hb : p.succeeded action with
  | false => rfl
  | true => exact absurd ((succeeded_iff _ _).1 hb) h

theorem foldl_bind_listeners (found : List Element) (w : World) :
    (found.foldl Clipboard.bind w).listeners =
      w.listeners ++ found.map (fun t => { node := t.node, type := "click" }) := by
  induction found generalizing w with
  | nil => simp
  | cons t ts ih => simp [List.foldl, ih, Clipboard.bind, World.emit]

theorem foldl_bind_log (found : List Element) (w : World) :
    (found.foldl Clipboard.bind w).log =
      w.log ++ found.map (fun t => Effect.addEventListener t.node "click") := by
  induction found generalizing w with
  | nil => simp
  | cons t ts ih => simp [List.foldl, ih, Clipboard.bind, World.emit]

theorem foldl_bind_document (found : List Element) (w : World) :
    (found.foldl Clipboard.bind w).document = w.document := by
  induction found generalizing w with
  | nil => simp
  | cons t ts ih => simp [List.foldl, ih, Clipboard.bind, World.emit]

/-! ## Validation -/

/-- C1, as stated, fails: a trigger whose `data-text` attribute is present but empty meets none
of the three conditions as worded (its action is the default, a text attribute is present, no
target attribute is present), and `validate` raises the missing-attributes error on it. -/
theorem validate_rejects_empty_text_attribute :
    statedInvalidAction (sampleTrigger [("data-text", "")]) = false ∧
      statedMissingAttributes (sampleTrigger [("data-text", "")]) = false ∧
      statedUnresolvedTarget (sampleWorld []) (sampleTrigger [("data-text", "")]) = false ∧
      (Clipboard.validate (samplePlatform (.returned true) []) (sampleWorld [])
          (sampleTrigger [("data-text", "")])).thrown =
        some (.error missingAttributesMessage) := by
  decide

/-- C1, amended: with an attribute counted as supplied only when it is present and non-empty
(`truthy`), and the action taken as `"copy"` when the attribute is absent or empty
(`resolvedAction`), `validate` checks in this order and raises the first failure that applies:
(1) the action is neither `"copy"` nor `"cut"`: the invalid-action error; (2) otherwise neither a
target nor a text is supplied: the missing-attributes error; (3) otherwise a target is supplied
and `getElementById` finds no element with that id: the invalid-target error. It raises nothing
exactly when none of the three holds, and then it has constructed the `ClipboardAction` from the
resolved action, the resolved target, the text and the trigger. -/
theorem validate_first_failure (p : Platform) (w : World) (trigger : Element) :
    (invalidAction trigger = true →
        (Clipboard.validate p w trigger).thrown = some (.error invalidActionMessage)) ∧
      (invalidAction trigger = false → missingAttributes trigger = true →
        (Clipboard.validate p w trigger).thrown = some (.error missingAttributesMessage)) ∧
      (invalidAction trigger = false → missingAttributes trigger = false →
        unresolvedTarget w trigger = true →
        (Clipboard.validate p w trigger).thrown = some (.error invalidTargetMessage)) ∧
      ((Clipboard.validate p w trigger).thrown = none ↔
        invalidAction trigger = false ∧ missingAttributes trigger = false ∧
          unresolvedTarget w trigger = false) ∧
      ((Clipboard.validate p w trigger).thrown = none →
        (Clipboard.validate p w trigger).world =
          (ClipboardAction.new p (resolvedAction trigger) (resolvedTarget w trigger)
            (trigger.getAttribute "data-text") trigger w).2) := by
  rw [validate_eq]
  cases invalidAction trigger <;> cases missingAttributes trigger <;>
    cases unresolvedTarget w trigger <;> simp

/-- C2: when one of the three guards of `validate` fires (invalid action value, neither target
nor text, unresolvable target id), `validate` raises and the world it leaves is the world it
started in: the log of effects has no new entry (no element created or inserted, nothing
selected, no `execCommand`, no event dispatched) and the document, its selection included, is
unchanged. -/
theorem validate_raises_before_any_effect (p : Platform) (w : World) (trigger : Element)
    (h : validated w trigger = false) :
    (∃ e, (Clipboard.validate p w trigger).thrown = some e) ∧
      (Clipboard.validate p w trigger).world = w ∧
      (Clipboard.validate p w trigger).world.since w = [] := by
  rw [validate_eq]
  simp only [validated] at h
  revert h
  cases invalidAction trigger <;> cases missingAttributes trigger <;>
    cases unresolvedTarget w trigger <;> simp [World.since]

/-- C2 at a trigger with `data-action="paste"` and a text. -/
theorem validate_raises_before_any_effect_witness :
    validated (sampleWorld ["xyz"])
        (sampleTrigger [("data-action", "paste"), ("data-text", "abc")]) = false ∧
      ((∃ e, (Clipboard.validate (samplePlatform (.returned true) []) (sampleWorld ["xyz"])
          (sampleTrigger [("data-action", "paste"), ("data-text", "abc")])).thrown = some e) ∧
        (Clipboard.validate (samplePlatform (.returned true) []) (sampleWorld ["xyz"])
          (sampleTrigger [("data-action", "paste"), ("data-text", "abc")])).world =
            sampleWorld ["xyz"] ∧
        (Clipboard.validate (samplePlatform (.returned true) []) (sampleWorld ["xyz"])
          (sampleTrigger [("data-action", "paste"), ("data-text", "abc")])).world.since
            (sampleWorld ["xyz"]) = []) :=
  ⟨by decide, validate_raises_before_any_effect _ _ _ (by decide)⟩

/-- C8, as stated, fails: a trigger that supplies both a `data-target` (resolving to an element)
and a `data-text` is accepted by `validate`. -/
theorem validate_accepts_target_with_text :
    truthy ((sampleTrigger [("data-target", "foo"), ("data-text", "abc")]).getAttribute
        "data-target") = true ∧
      truthy ((sampleTrigger [("data-target", "foo"), ("data-text", "abc")]).getAttribute
        "data-text") = true ∧
      (Clipboard.validate (samplePlatform (.returned true) []) (sampleWorld [])
        (sampleTrigger [("data-target", "foo"), ("data-text", "abc")])).thrown = none := by
  decide

/-- C8, amended: at least one of target and text must be supplied. `validate` accepts a
configuration only if a non-empty `data-target` or a non-empty `data-text` is supplied, so a
trigger that supplies neither is rejected; a trigger that supplies both is not rejected for it:
it is accepted exactly when its action is valid and its target resolves. -/
theorem validate_requires_target_or_text (p : Platform) (w : World) (trigger : Element) :
    ((Clipboard.validate p w trigger).thrown = none →
        truthy (trigger.getAttribute "data-target") = true ∨
          truthy (trigger.getAttribute "data-text") = true) ∧
      (truthy (trigger.getAttribute "data-target") = false →
        truthy (trigger.getAttribute "data-text") = false →
        (Clipboard.validate p w trigger).thrown ≠ none) ∧
      (truthy (trigger.getAttribute "data-target") = true →
        truthy (trigger.getAttribute "data-text") = true →
        ((Clipboard.validate p w trigger).thrown = none ↔
          invalidAction trigger = false ∧ unresolvedTarget w trigger = false)) := by
  rw [validate_eq]
  cases h1 : invalidAction trigger <;>
    cases h2 : truthy (trigger.getAttribute "data-target") <;>
    cases h3 : truthy (trigger.getAttribute "data-text") <;>
    cases h4 : unresolvedTarget w trigger <;> simp [missingAttributes, h2, h3]

/-! ## The copy attempt and its report -/

/-- C3: for every validated click (copy or cut, text mode or target mode) no exception leaves
`validate`, whatever `execCommand` does. If `execCommand` throws or returns false, the only
event dispatched is one error event on the trigger whose detail is the string
`"Cannot execute <action> operation"`, no success event is dispatched, and the selection is not
cleared: neither `target.blur()` nor `removeAllRanges()` is called. If `execCommand` returns
true, the selection is cleared after the success event and not before: the clearing steps are
`blur()` on the resolved target, if there is one, then `removeAllRanges()`, all after the
success event, and the selection holds no range afterwards. -/
theorem failed_copy_reports_one_error (p : Platform) (w : World) (trigger : Element)
    (h : validated w trigger = true) :
    (Clipboard.validate p w trigger).thrown = none ∧
      (p.execCommand (resolvedAction trigger) ≠ .returned true →
        ((Clipboard.validate p w trigger).world.since w).filter Effect.isDispatch =
            [.dispatchEvent trigger.node
              (CustomEvent.new "error"
                { bubbles := none, cancelable := none,
                  detail := some (.message
                    ("Cannot execute " ++ resolvedAction trigger ++ " operation")) })] ∧
          ((Clipboard.validate p w trigger).world.since w).countP (Effect.isEvent "error") = 1 ∧
          ((Clipboard.validate p w trigger).world.since w).countP (Effect.isEvent "success") = 0 ∧
          ((Clipboard.validate p w trigger).world.since w).any Effect.isClear = false) ∧
      (p.execCommand (resolvedAction trigger) = .returned true →
        precedes (Effect.isEvent "success") (fun e => e == .removeAllRanges)
            ((Clipboard.validate p w trigger).world.since w) = true ∧
          precedes Effect.isClear (Effect.isEvent "success")
            ((Clipboard.validate p w trigger).world.since w) = false ∧
          ((Clipboard.validate p w trigger).world.since w).filter Effect.isClear =
            (match resolvedTarget w trigger with
              | some target => [Effect.blur target.node]
              | none => []) ++ [Effect.removeAllRanges] ∧
          (Clipboard.validate p w trigger).world.document.ranges = []) := by
  refine ⟨by rw [validate_of_validated p w trigger h], ?_, ?_⟩
  · intro hs
    rw [validate_since p w trigger h, not_succeeded p _ hs]
    rcases validated_cases w trigger h with hx | ⟨hx, target, ht⟩
    · cases ht : resolvedTarget w trigger <;>
        simp [clickSelection, clickAction, clickCleanup, reportEffects, fakeEffects,
          firedEvent, CustomEvent.new, Effect.isDispatch, Effect.isEvent, Effect.isClear, hx]
    · cases hf : isTextField target <;>
        simp [clickSelection, clickAction, clickCleanup, reportEffects, targetEffect,
          firedEvent, CustomEvent.new, Effect.isDispatch, Effect.isEvent, Effect.isClear, hx, ht,
          hf]
  · intro hs
    have hs1 := (succeeded_iff _ _).2 hs
    rw [validate_since p w trigger h, validate_ranges p w trigger h hs1, hs1]
    rcases validated_cases w trigger h with hx | ⟨hx, target, ht⟩
    · cases ht : resolvedTarget w trigger <;>
        simp [clickSelection, clickAction, clickCleanup, reportEffects, fakeEffects,
          firedEvent, Effect.isEvent, Effect.isClear, precedes, hx, ht]
    · cases hf : isTextField target <;>
        simp [clickSelection, clickAction, clickCleanup, reportEffects, targetEffect,
          firedEvent, Effect.isEvent, Effect.isClear, precedes, hx, ht, hf]

/-- C3 at a cut of the paragraph `bar` on a host whose `execCommand` throws, with a range
selected beforehand: one error event, no success event, and no clearing step. -/
theorem failed_copy_reports_one_error_witness :
    ((Clipboard.validate (samplePlatform .threw []) (sampleWorld ["xyz"])
        (sampleTrigger [("data-action", "cut"), ("data-target", "bar")])).world.since
          (sampleWorld ["xyz"])).countP (Effect.isEvent "error") = 1 ∧
      ((Clipboard.validate (samplePlatform .threw []) (sampleWorld ["xyz"])
        (sampleTrigger [("data-action", "cut"), ("data-target", "bar")])).world.since
          (sampleWorld ["xyz"])).countP (Effect.isEvent "success") = 0 ∧
      ((Clipboard.validate (samplePlatform .threw []) (sampleWorld ["xyz"])
        (sampleTrigger [("data-action", "cut"), ("data-target", "bar")])).world.since
          (sampleWorld ["xyz"])).any Effect.isClear = false :=
  have h := (failed_copy_reports_one_error (samplePlatform .threw []) (sampleWorld ["xyz"])
    (sampleTrigger [("data-action", "cut"), ("data-target", "bar")]) (by decide)).2.1 (by decide)
  ⟨h.2.1, h.2.2.1, h.2.2.2⟩

/-- C6: for every validated click, the action performs one selection step, then calls
`document.execCommand` exactly once, with the resolved action, and then dispatches exactly one
event, on the trigger, which is a success event or an error event; and the constructor ran
`selectValue` or ran `selectTarget`: the branch in which neither runs is not taken. -/
theorem validated_click_runs_once (p : Platform) (w : World) (trigger : Element)
    (h : validated w trigger = true) :
    ((Clipboard.validate p w trigger).world.since w).countP Effect.isSelection = 1 ∧
      ((Clipboard.validate p w trigger).world.since w).filter Effect.isExecCommand =
        [.execCommand (resolvedAction trigger)] ∧
      precedes Effect.isSelection Effect.isExecCommand
        ((Clipboard.validate p w trigger).world.since w) = true ∧
      precedes Effect.isExecCommand Effect.isSelection
        ((Clipboard.validate p w trigger).world.since w) = false ∧
      ((Clipboard.validate p w trigger).world.since w).countP Effect.isDispatch = 1 ∧
      ((Clipboard.validate p w trigger).world.since w).countP (Effect.isEvent "success") +
        ((Clipboard.validate p w trigger).world.since w).countP (Effect.isEvent "error") = 1 ∧
      (∀ node event,
        Effect.dispatchEvent node event ∈ (Clipboard.validate p w trigger).world.since w →
          node = trigger.node) ∧
      precedes Effect.isExecCommand Effect.isDispatch
        ((Clipboard.validate p w trigger).world.since w) = true ∧
      precedes Effect.isDispatch Effect.isExecCommand
        ((Clipboard.validate p w trigger).world.since w) = false ∧
      ((Clipboard.validate p w trigger).world =
          ((initialAction (resolvedAction trigger) (resolvedTarget w trigger)
            (trigger.getAttribute "data-text") trigger).selectValue p w).2 ∨
        ∃ target, resolvedTarget w trigger = some target ∧
          (Clipboard.validate p w trigger).world =
            ((initialAction (resolvedAction trigger) (resolvedTarget w trigger)
              (trigger.getAttribute "data-text") trigger).selectTarget p target w).2) := by
  rw [validate_since p w trigger h]
  rcases validated_cases w trigger h with hx | ⟨hx, target, ht⟩
  · refine ⟨?_, ?_, ?_, ?_, ?_, ?_, ?_, ?_, ?_, ?_⟩
    case refine_10 =>
      left
      rw [validate_of_validated p w trigger h, new_text _ _ _ _ _ _ hx]
    all_goals
      cases ht : resolvedTarget w trigger <;>
        cases hs : p.succeeded (resolvedAction trigger) <;>
        simp [clickSelection, clickAction, clickCleanup, reportEffects, fakeEffects,
          firedEvent, Effect.isDispatch, Effect.isEvent, Effect.isSelection,
          Effect.isExecCommand, precedes, hx, ht]
  · refine ⟨?_, ?_, ?_, ?_, ?_, ?_, ?_, ?_, ?_, ?_⟩
    case refine_10 =>
      right
      refine ⟨target, ht, ?_⟩
      rw [validate_of_validated p w trigger h, ht, new_target _ _ _ _ _ _ hx]
    all_goals
      cases hf : isTextField target <;>
        cases hs : p.succeeded (resolvedAction trigger) <;>
        simp [clickSelection, clickAction, clickCleanup, reportEffects, targetEffect,
          firedEvent, Effect.isDispatch, Effect.isEvent, Effect.isSelection,
          Effect.isExecCommand, precedes, hx, ht, hf]

/-- C6 at a copy of the text field `foo`: one selection step, then one `execCommand`, then one
event. -/
theorem validated_click_runs_once_witness :
    ((Clipboard.validate (samplePlatform (.returned false) []) (sampleWorld [])
        (sampleTrigger [("data-target", "foo")])).world.since (sampleWorld [])).filter
          Effect.isExecCommand = [.execCommand "copy"] ∧
      ((Clipboard.validate (samplePlatform (.returned false) []) (sampleWorld [])
        (sampleTrigger [("data-target", "foo")])).world.since (sampleWorld [])).countP
          Effect.isDispatch = 1 :=
  have h := validated_click_runs_once (samplePlatform (.returned false) []) (sampleWorld [])
    (sampleTrigger [("data-target", "foo")]) (by decide)
  ⟨h.2.1, h.2.2.2.2.1⟩

/-- C4, as stated, fails: on a trigger whose `data-action` attribute is present but empty the
attribute is not absent and its value is the empty string, while the success event carries the
action `"copy"`. -/
theorem success_event_of_empty_action_attribute :
    statedAction (sampleTrigger [("data-action", ""), ("data-text", "abc")]) = "" ∧
      ((Clipboard.validate (samplePlatform (.returned true) []) (sampleWorld [])
        (sampleTrigger [("data-action", ""), ("data-text", "abc")])).world.since
          (sampleWorld [])).filter Effect.isDispatch =
        [.dispatchEvent 0
          (CustomEvent.new "success"
            { bubbles := none, cancelable := none,
              detail := some (.result "copy" (some "abc")) })] := by
  decide

/-- C4, amended: for every validated click on which `execCommand` returns true, the one event
the trigger receives is a success event whose detail is `{action, text}`, where `action` is the
trigger's action attribute, or `"copy"` when that attribute is absent or empty, and `text` is
the literal `data-text` value whenever a non-empty `data-text` is supplied (also when a
`data-target` is supplied with it), and otherwise the value of the target when the target is
an `INPUT` or `TEXTAREA` element. -/
theorem success_event_payload (p : Platform) (w : World) (trigger : Element)
    (h : validated w trigger = true)
    (hs : p.execCommand (resolvedAction trigger) = .returned true) :
    (resolvedAction trigger =
        match trigger.getAttribute "data-action" with
        | some a => if a = "" then "copy" else a
        | none => "copy") ∧
      (truthy (trigger.getAttribute "data-text") = true →
        ((Clipboard.validate p w trigger).world.since w).filter Effect.isDispatch =
          [.dispatchEvent trigger.node
            (CustomEvent.new "success"
              { bubbles := none, cancelable := none,
                detail := some (.result (resolvedAction trigger)
                  (trigger.getAttribute "data-text")) })]) ∧
      (truthy (trigger.getAttribute "data-text") = false →
        ∀ target, resolvedTarget w trigger = some target →
          target.nodeName = "INPUT" ∨ target.nodeName = "TEXTAREA" →
          ((Clipboard.validate p w trigger).world.since w).filter Effect.isDispatch =
            [.dispatchEvent trigger.node
              (CustomEvent.new "success"
                { bubbles := none, cancelable := none,
                  detail := some (.result (resolvedAction trigger) (some target.value)) })]) := by
  have hs1 := (succeeded_iff _ _).2 hs
  rw [validate_since p w trigger h, hs1]
  refine ⟨?_, ?_, ?_⟩
  · unfold resolvedAction orDefault
    cases trigger.getAttribute "data-action" with
    | none => rfl
    | some a => by_cases ha : a = "" <;> simp [ha]
  · intro hx
    cases ht : resolvedTarget w trigger <;>
      simp [clickSelection, clickAction, clickText, clickCleanup, reportEffects, fakeEffects,
        firedEvent, CustomEvent.new, Effect.isDispatch, hx, ht]
  · intro hx target ht hn
    have hf : isTextField target = true := by
      rcases hn with hn | hn <;> simp [isTextField, hn]
    simp [clickSelection, clickAction, clickText, clickCleanup, reportEffects, targetEffect,
      targetText, firedEvent, CustomEvent.new, Effect.isDispatch, hx, ht, hf]

/-- C4 at the two examples of the specification: `data-text="abc"` with the default action
gives `{action: "copy", text: "abc"}`, and `data-action="cut"` with a target field holding
`hello` gives `{action: "cut", text: "hello"}`. -/
theorem success_event_payload_witness :
    ((Clipboard.validate (samplePlatform (.returned true) []) (sampleWorld [])
        (sampleTrigger [("data-text", "abc")])).world.since (sampleWorld [])).filter
          Effect.isDispatch =
        [.dispatchEvent 0
          (CustomEvent.new "success"
            { bubbles := none, cancelable := none,
              detail := some (.result "copy" (some "abc")) })] ∧
      ((Clipboard.validate (samplePlatform (.returned true) []) (sampleWorld [])
        (sampleTrigger [("data-action", "cut"), ("data-target", "foo")])).world.since
          (sampleWorld [])).filter Effect.isDispatch =
        [.dispatchEvent 0
          (CustomEvent.new "success"
            { bubbles := none, cancelable := none,
              detail := some (.result "cut" (some "hello")) })] :=
  ⟨(success_event_payload (samplePlatform (.returned true) []) (sampleWorld [])
      (sampleTrigger [("data-text", "abc")]) (by decide) (by decide)).2.1 (by decide),
    (success_event_payload (samplePlatform (.returned true) []) (sampleWorld [])
      (sampleTrigger [("data-action", "cut"), ("data-target", "foo")]) (by decide)
      (by decide)).2.2 (by decide) sampleField (by decide) (by decide)⟩

/-! ## The synthesized element -/

/-- C5: for every literal-text action and every behaviour of `execCommand`, `selectValue`
creates one input element, appends it to `document.body`, and removes that same element after
the copy attempt, before it returns; these are its only insertions into and removals from the
body, the element was not a child of the body before, and the children of `document.body` (and
the elements of the document) afterwards are exactly those before. -/
theorem selectValue_restores_body (p : Platform) (this : ClipboardAction) (w : World)
    (h : w.document.WellFormed) :
    (this.selectValue p w).2.document.body = w.document.body ∧
      (this.selectValue p w).2.document.elements = w.document.elements ∧
      Effect.createElement w.document.nextNode "input" ∈ (this.selectValue p w).2.since w ∧
      ((this.selectValue p w).2.since w).filter Effect.isBodyChange =
        [.appendChild w.document.nextNode, .removeChild w.document.nextNode] ∧
      w.document.nextNode ∉ w.document.body ∧
      precedes Effect.isExecCommand (fun e => e == .removeChild w.document.nextNode)
        ((this.selectValue p w).2.since w) = true := by
  refine ⟨selectValue_body p this w h, selectValue_elements p this w h, ?_, ?_, ?_, ?_⟩
  · rw [since_append _ _ _ (selectValue_log p this w)]
    simp [fakeEffects]
  · rw [since_append _ _ _ (selectValue_log p this w)]
    cases ht : this.target <;> cases hs : p.succeeded this.action <;>
      simp [fakeEffects, reportEffects, Effect.isBodyChange, ht]
  · intro hm
    exact Nat.lt_irrefl _ (h.2 _ hm)
  · rw [since_append _ _ _ (selectValue_log p this w)]
    cases ht : this.target <;> cases hs : p.succeeded this.action <;>
      simp [fakeEffects, reportEffects, Effect.isExecCommand, precedes, ht]

/-- C5 on the sample page, for a copy of `abc` on a host whose `execCommand` throws. -/
theorem selectValue_restores_body_witness :
    ((initialAction "copy" none (some "abc") (sampleTrigger [("data-text", "abc")])).selectValue
        (samplePlatform .threw []) (sampleWorld [])).2.document.body = [0, 1, 2] ∧
      (((initialAction "copy" none (some "abc")
        (sampleTrigger [("data-text", "abc")])).selectValue
          (samplePlatform .threw []) (sampleWorld [])).2.since (sampleWorld [])).filter
            Effect.isBodyChange = [.appendChild 3, .removeChild 3] :=
  have h := selectValue_restores_body (samplePlatform .threw [])
    (initialAction "copy" none (some "abc") (sampleTrigger [("data-text", "abc")]))
    (sampleWorld []) (by decide)
  ⟨h.1, h.2.2.2.1⟩

/-! ## Construction of the binder -/

/-- C7: for every selector string, `new Clipboard(selector)` raises the no-matches error if and
only if `document.querySelectorAll` returns zero elements for it; when at least one element
matches, construction raises nothing, leaves the document as it is and attaches one click
listener per matched element, in order: exactly one to each matched element, the matched
elements being distinct nodes. -/
theorem constructor_fails_iff_no_match (p : Platform) (w : World) (selector : String) :
    ((Clipboard.new p w selector).thrown = some (.error noMatchesMessage) ↔
        p.querySelectorAll selector = some []) ∧
      ∀ found, p.querySelectorAll selector = some found → found ≠ [] →
        (Clipboard.new p w selector).thrown = none ∧
          (Clipboard.new p w selector).world.document = w.document ∧
          (Clipboard.new p w selector).world.listeners =
            w.listeners ++ found.map (fun t => { node := t.node, type := "click" }) ∧
          (Clipboard.new p w selector).world.since w =
            found.map (fun t => Effect.addEventListener t.node "click") ∧
          ((found.map Element.node).Nodup → ∀ t ∈ found,
            ((Clipboard.new p w selector).world.since w).count
              (Effect.addEventListener t.node "click") = 1) := by
  constructor
  · unfold Clipboard.new
    cases hq : p.querySelectorAll selector with
    | none => simp
    | some found =>
      cases found with
      | nil => simp
      | cons t ts => simp
  · intro found hq hne
    have hlen : (found.length == 0) = false := by
      cases found with
      | nil => exact absurd rfl hne
      | cons t ts => simp
    have hsince : (Clipboard.new p w selector).world.since w =
        found.map (fun t => Effect.addEventListener t.node "click") := by
      apply since_append
      simp [Clipboard.new, hq, hlen, foldl_bind_log]
    refine ⟨?_, ?_, ?_, hsince, ?_⟩
    · simp [Clipboard.new, hq, hlen]
    · simp [Clipboard.new, hq, hlen, foldl_bind_document]
    · simp [Clipboard.new, hq, hlen, foldl_bind_listeners]
    · intro hnd t ht
      rw [hsince]
      have hmap : found.map (fun t => Effect.addEventListener t.node "click") =
          (found.map Element.node).map (fun n => Effect.addEventListener n "click") := by
        simp [List.map_map, Function.comp_def]
      rw [hmap]
      apply List.count_eq_one_of_mem
      · apply hnd.map
        intro a b hab
        simpa using hab
      · exact List.mem_map.2 ⟨t.node, List.mem_map.2 ⟨t, ht, rfl⟩, rfl⟩

/-- C7 on the sample page: with two elements matched, construction succeeds and attaches one
click listener to each; with none matched it raises the no-matches error. -/
theorem constructor_fails_iff_no_match_witness :
    ((Clipboard.new (samplePlatform .threw [sampleField, sampleParagraph]) (sampleWorld [])
        ".btn").thrown = none ∧
      (Clipboard.new (samplePlatform .threw [sampleField, sampleParagraph]) (sampleWorld [])
        ".btn").world.listeners =
          [{ node := 1, type := "click" }, { node := 2, type := "click" }]) ∧
      (Clipboard.new (samplePlatform .threw []) (sampleWorld []) ".btn").thrown =
        some (.error noMatchesMessage) :=
  have h := (constructor_fails_iff_no_match
    (samplePlatform .threw [sampleField, sampleParagraph]) (sampleWorld []) ".btn").2
      [sampleField, sampleParagraph] rfl (by decide)
  ⟨⟨h.1, h.2.2.1⟩,
    (constructor_fails_iff_no_match (samplePlatform .threw []) (sampleWorld []) ".btn").1.2 rfl⟩

/-! ## Selecting the content of a target -/

/-- C9 fails on the code: the paragraph `bar` stringifies to `lorem`, its text content, and
`selectTarget` adds its range to a selection that already holds the range `xyz` without
clearing it first. It records `xyzlorem` on a host whose `addRange` keeps the ranges already
selected, and `xyz` on a host whose `addRange` ignores the call when a range is selected; the
success event carries `xyzlorem`, where the claim promises `lorem` for every prior state of the
selection. -/
theorem selectTarget_with_prior_range :
    sampleParagraph.textContent = "lorem" ∧
      (samplePlatform (.returned true) []).rangeText sampleParagraph = "lorem" ∧
      ((initialAction "copy" (some sampleParagraph) none
        (sampleTrigger [("data-target", "bar")])).selectTarget
          (samplePlatform (.returned true) []) sampleParagraph
          (sampleWorld ["xyz"])).1.selectedText = some "xyzlorem" ∧
      ((initialAction "copy" (some sampleParagraph) none
        (sampleTrigger [("data-target", "bar")])).selectTarget
          { samplePlatform (.returned true) [] with addRangeKeepsExisting := false }
          sampleParagraph (sampleWorld ["xyz"])).1.selectedText = some "xyz" ∧
      ((Clipboard.validate (samplePlatform (.returned true) []) (sampleWorld ["xyz"])
        (sampleTrigger [("data-target", "bar")])).world.since
          (sampleWorld ["xyz"])).filter Effect.isDispatch =
        [.dispatchEvent 0
          (CustomEvent.new "success"
            { bubbles := none, cancelable := none,
              detail := some (.result "copy" (some "xyzlorem")) })] := by
  decide

/-! ## The emitted events -/

/-- C10, as stated, fails: the success event `fireEvent` dispatches for the payload
`{action: "copy", text: "abc"}` has its `bubbles` flag false. -/
theorem fireEvent_does_not_bubble :
    ((initialAction "copy" none (some "abc") (sampleTrigger [("data-text", "abc")])).fireEvent
        (sampleWorld []) "success" (.result "copy" (some "abc"))).since (sampleWorld []) =
      [.dispatchEvent 0
        { type := "success", bubbles := false, cancelable := false,
          detail := some (.result "copy" (some "abc")) }] := by
  decide

/-- C10, amended: `fireEvent` dispatches exactly one event, on the trigger element, of the
given type and carrying the payload as its detail; it passes no `bubbles` option to the event
constructor, so the event has the default flag: `bubbles` is false, the event does not bubble.
So every event a validated click dispatches is on the trigger, is a success event carrying
`{action, text}` or an error event carrying a message, and has `bubbles` false. -/
theorem fireEvent_dispatches_payload (p : Platform) (w : World) (trigger : Element)
    (this : ClipboardAction) (type : String) (detail : Detail) :
    ((this.fireEvent w type detail).document = w.document ∧
      ∃ event, (this.fireEvent w type detail).since w =
          [.dispatchEvent this.trigger.node event] ∧
        event = CustomEvent.new type { bubbles := none, cancelable := none, detail := detail } ∧
        event.type = type ∧ event.detail = some detail ∧ event.bubbles = false) ∧
      (validated w trigger = true → ∀ node event,
        Effect.dispatchEvent node event ∈ (Clipboard.validate p w trigger).world.since w →
          node = trigger.node ∧ event.bubbles = false ∧
            ((event.type = "success" ∧ ∃ text,
                event.detail = some (.result (resolvedAction trigger) text)) ∨
              (event.type = "error" ∧ ∃ text, event.detail = some (.message text)))) := by
  refine ⟨⟨rfl, _, since_append _ _ _ rfl, rfl, rfl, rfl, rfl⟩, ?_⟩
  intro h node event
  rw [validate_since p w trigger h]
  rcases validated_cases w trigger h with hx | ⟨hx, target, ht⟩
  · cases ht : resolvedTarget w trigger <;>
      cases hs : p.succeeded (resolvedAction trigger) <;>
      simp [clickSelection, clickAction, clickCleanup, reportEffects, fakeEffects,
        firedEvent, hx, ht] <;>
      rintro rfl rfl <;> simp
  · cases hf : isTextField target <;>
      cases hs : p.succeeded (resolvedAction trigger) <;>
      simp [clickSelection, clickAction, clickCleanup, reportEffects, targetEffect,
        firedEvent, hx, ht, hf] <;>
      rintro rfl rfl <;> simp

end ClipboardJs

